import Mathlib

set_option maxRecDepth 100000

namespace Nes

/-! Shallow embedding of the NES emulator core (cpu.rs, ppu/mod.rs and the
PPU register modules). Machine integers are modelled as Nat with explicit
modular reductions at the points where the Rust code relies on wrapping
u8/u16 arithmetic; fallible code paths (panics and out-of-bounds indexing)
are modelled with Option. Register-file fields hold byte values; theorems
carry the corresponding bounds as hypotheses where they matter. -/

/-! CPU status flags (cpu.rs, bitflags StatusFlags). -/

def CARRY : Nat := 0b00000001

def ZERO : Nat := 0b00000010

def INTERRUPT_DISABLE : Nat := 0b00000100

def DECIMAL : Nat := 0b00001000

def BREAK : Nat := 0b00010000

def BREAK2 : Nat := 0b00100000

def OVERFLOW : Nat := 0b01000000

def NEGATIVE : Nat := 0b10000000

/-- bitflags insert: set the bits of the mask. -/
def insertFlag (s m : Nat) : Nat := s ||| m

/-- bitflags remove: clear the bits of the mask (bits AND NOT mask, the
complement taken within a byte). -/
def removeFlag (s m : Nat) : Nat := s &&& (0xFF ^^^ m)

/-- bitflags set: insert the mask when the condition holds, remove it
otherwise. -/
def setFlag (s m : Nat) (b : Bool) : Nat := if b then insertFlag s m else removeFlag s m

/-- bitflags contains: all bits of the mask are present. -/
def containsFlag (s m : Nat) : Bool := (s &&& m) == m

/-- cpu.rs update_zero_and_negative_flags: Zero is set iff the value is 0,
Negative iff bit 7 of the value is set. -/
def update_zero_and_negative_flags (s value : Nat) : Nat :=
  setFlag (setFlag s ZERO (value == 0)) NEGATIVE (decide (0 < value &&& 0b10000000))

/-! The CPU register file, restricted to the registers the data-movement and
logical instructions touch (cpu.rs struct CPU, without the bus). -/

structure CpuRegs where
  register_a : Nat
  register_x : Nat
  register_y : Nat
  status : Nat
  deriving DecidableEq

/-- cpu.rs set_register_a: store the value and update Zero and Negative. -/
def set_register_a (r : CpuRegs) (value : Nat) : CpuRegs :=
  { r with register_a := value, status := update_zero_and_negative_flags r.status value }

/-- cpu.rs lda, with the operand byte already fetched from memory. -/
def lda_value (r : CpuRegs) (data : Nat) : CpuRegs := set_register_a r data

/-- cpu.rs tax. -/
def tax (r : CpuRegs) : CpuRegs :=
  { r with register_x := r.register_a,
           status := update_zero_and_negative_flags r.status r.register_a }

/-- cpu.rs txa. -/
def txa (r : CpuRegs) : CpuRegs :=
  { r with register_a := r.register_x,
           status := update_zero_and_negative_flags r.status r.register_x }

/-- cpu.rs and, with the operand byte already fetched from memory. -/
def and_value (r : CpuRegs) (data : Nat) : CpuRegs :=
  { r with register_a := r.register_a &&& data,
           status := update_zero_and_negative_flags r.status (r.register_a &&& data) }

/-- cpu.rs eor, with the operand byte already fetched from memory. -/
def eor_value (r : CpuRegs) (data : Nat) : CpuRegs :=
  { r with register_a := r.register_a ^^^ data,
           status := update_zero_and_negative_flags r.status (r.register_a ^^^ data) }

/-- cpu.rs ora, with the operand byte already fetched from memory. -/
def ora_value (r : CpuRegs) (data : Nat) : CpuRegs :=
  set_register_a r (r.register_a ||| data)

/-- cpu.rs add_to_accumulator on (accumulator, status): 9-bit sum of
accumulator, operand and carry-in; Carry set iff the sum exceeds 0xFF;
Overflow from the two[s]-complement sign test; result is the low byte. -/
def add_to_accumulator (a s value : Nat) : Nat × Nat :=
  let sum := a + value + (if containsFlag s CARRY then 1 else 0)
  let s1 := setFlag s CARRY (decide (0xFF < sum))
  let s2 := setFlag s1 OVERFLOW
    (decide ((value ^^^ (sum % 256)) &&& ((a ^^^ (sum % 256))) &&& 0x80 ≠ 0))
  (sum % 256, update_zero_and_negative_flags s2 (sum % 256))

/-- cpu.rs add_to_register_a: same arithmetic as add_to_accumulator, written
with insert/remove branches in the source; used by the unofficial opcodes
and by sub_from_register_a. -/
def add_to_register_a (a s data : Nat) : Nat × Nat :=
  let sum := a + data + (if containsFlag s CARRY then 1 else 0)
  let s1 := if 0xFF < sum then insertFlag s CARRY else removeFlag s CARRY
  let s2 := if (data ^^^ (sum % 256)) &&& (((sum % 256) ^^^ a)) &&& 0x80 ≠ 0
    then insertFlag s1 OVERFLOW else removeFlag s1 OVERFLOW
  (sum % 256, update_zero_and_negative_flags s2 (sum % 256))

/-- The operand transformation of SBC: (data as i8).wrapping_neg().wrapping_sub(1)
reinterpreted as u8, i.e. wrapping negation then wrapping minus one on the
byte representative. -/
def ones_complement (data : Nat) : Nat := ((256 - data % 256) % 256 + 255) % 256

/-- cpu.rs sub_from_register_a: ADC of the one[s]-complement of the operand. -/
def sub_from_register_a (a s data : Nat) : Nat × Nat :=
  add_to_register_a a s (ones_complement data)

/-- cpu.rs compare (CMP/CPX/CPY core), with the operand byte already fetched:
Carry iff compare_value is at least the operand, Zero and Negative from the
wrapping difference. -/
def compare_flags (compare_value s data : Nat) : Nat :=
  update_zero_and_negative_flags (setFlag s CARRY (decide (data ≤ compare_value)))
    ((compare_value + 256 - data) % 256)

/-- The DCP arm of run_with_callback (cpu.rs, opcodes 0xc7 etc.), with the
memory operand already fetched: decrement the operand byte (wrapping), then
insert Carry when the decremented value is at most the accumulator, and set
Zero/Negative from the wrapping difference. Returns (value written back,
new status). -/
def dcp_step (a s m : Nat) : Nat × Nat :=
  let data := (m + 255) % 256
  let s1 := if data ≤ a then insertFlag s CARRY else s
  (data, update_zero_and_negative_flags s1 ((a + 256 - data) % 256))

/-! The CPU stack interface (cpu.rs push/pop and the PHP/PLP/RTI opcodes).
Memory is the byte store seen through the bus; the stack page starts at
0x0100 and the stack pointer is a byte with wrapping movement. -/

structure CpuStack where
  status : Nat
  stack_ptr : Nat
  program_counter : Nat
  mem : Nat → Nat

/-- cpu.rs push: write at the stack address, then decrement (wrapping). -/
def push (c : CpuStack) (data : Nat) : CpuStack :=
  { c with mem := fun addr => if addr = 0x0100 + c.stack_ptr then data else c.mem addr,
           stack_ptr := (c.stack_ptr + 255) % 256 }

/-- cpu.rs pop: increment (wrapping), then read at the stack address. -/
def pop (c : CpuStack) : Nat × CpuStack :=
  let sp := (c.stack_ptr + 1) % 256
  (c.mem (0x0100 + sp), { c with stack_ptr := sp })

/-- cpu.rs pop_u16: two pops, low byte first (u16::from_le_bytes). -/
def pop_u16 (c : CpuStack) : Nat × CpuStack :=
  let lo := pop c
  let hi := pop lo.2
  (256 * hi.1 + lo.1, hi.2)

/-- cpu.rs php: push a clone of the status with Break and Break2 inserted. -/
def php (c : CpuStack) : CpuStack :=
  push c (insertFlag (insertFlag c.status BREAK) BREAK2)

/-- cpu.rs plp: pop the status byte, force Break cleared and Break2 set. -/
def plp (c : CpuStack) : CpuStack :=
  let d := pop c
  { d.2 with status := insertFlag (removeFlag d.1 BREAK) BREAK2 }

/-- cpu.rs rti: restore the status as plp does, then pop the program counter. -/
def rti (c : CpuStack) : CpuStack :=
  let d := pop c
  let c1 := { d.2 with status := insertFlag (removeFlag d.1 BREAK) BREAK2 }
  let pc := pop_u16 c1
  { pc.2 with program_counter := pc.1 }

/-! Branch instructions (cpu.rs branch and the branch arms of
run_with_callback). The program counter is a u16; all of its arithmetic is
reduced modulo 2^16. Memory is read-only here. -/

/-- Sign extension of a displacement byte: (d as i8) as u16. -/
def sign_extend_16 (d : Nat) : Nat :=
  if d % 256 < 128 then d % 256 else 0xFF00 + d % 256

/-- cpu.rs branch: when the condition holds, read the displacement byte at
the program counter and jump to pc + 1 + displacement (wrapping u16);
otherwise leave the program counter alone. -/
def branch (mem : Nat → Nat) (pc : Nat) (condition_to_jump : Bool) : Nat :=
  if !condition_to_jump then pc
  else ((pc + 1) % 65536 + sign_extend_16 (mem pc)) % 65536

/-- The branch condition each branch opcode tests in run_with_callback. -/
def branch_condition (opcode s : Nat) : Option Bool :=
  match opcode with
  | 0x10 => some (!containsFlag s NEGATIVE)
  | 0x50 => some (!containsFlag s OVERFLOW)
  | 0x70 => some (containsFlag s OVERFLOW)
  | 0x90 => some (!containsFlag s CARRY)
  | 0xB0 => some (containsFlag s CARRY)
  | 0xD0 => some (!containsFlag s ZERO)
  | 0xF0 => some (containsFlag s ZERO)
  | 0x30 => some (containsFlag s NEGATIVE)
  | _ => none

/-- One fetch-decode-execute step of run_with_callback for a branch opcode at
address pc0: advance past the opcode byte, execute branch, then advance by
the descriptor operand count (1 for every branch) unless
has_jumped_or_branched detects that the program counter moved. -/
def branch_step (mem : Nat → Nat) (s pc0 opcode : Nat) : Option Nat :=
  (branch_condition opcode s).map (fun condition =>
    let pc1 := (pc0 + 1) % 65536
    let pcExec := branch mem pc1 condition
    if pcExec ≠ pc1 then pcExec else (pcExec + 1) % 65536)

/-! PPU registers (ppu/registers) and the PPU itself (ppu/mod.rs). -/

/-- rom.rs Mirroring. -/
inductive Mirroring where
  | HORIZONTAL
  | VERTICAL
  | FOUR_SCREEN
  deriving DecidableEq

def NAME_TABLE_SIZE : Nat := 0x400

def CHR_ROM_END_ADDR : Nat := 0x1FFF

def NAME_TABLE_START_ADDR : Nat := 0x2000

def NAME_TABLE_END_ADDR : Nat := 0x2FFF

def PALETTE_START_ADDR : Nat := 0x3F00

def BEFORE_MIRROR_RANGE : Nat := 0x3FFF

def SCAN_LINES_PER_FRAME : Nat := 262

def CLOCK_CYCLES_PER_SCAN_LINE : Nat := 341

def SCAN_LINE_INTERRUPT : Nat := 241

/-- ppu/registers/status.rs StatusRegister masks. -/
def SPRITE_OVERFLOW : Nat := 0b00100000

def SPRITE_0_HIT : Nat := 0b01000000

def IN_VBLANK : Nat := 0b10000000

/-- ppu/registers/control.rs ControlRegister masks (the ones the modelled
paths read). -/
def VRAM_INCREMENT_MODE : Nat := 0b00000100

def GENERATE_NMI : Nat := 0b10000000

/-- control.rs get_vram_jump_dist: 32 when the increment-mode bit is set,
1 otherwise. -/
def get_vram_jump_dist (control : Nat) : Nat :=
  if containsFlag control VRAM_INCREMENT_MODE then 32 else 1

/-- control.rs generate_nmi. -/
def generate_nmi (control : Nat) : Bool := containsFlag control GENERATE_NMI

/-- ppu/registers/address.rs AddressRegister: the 16-bit VRAM pointer split
into two latched bytes (hi, lo) plus the write latch. -/
structure AddressRegister where
  hi : Nat
  lo : Nat
  address_latch : Bool
  deriving DecidableEq

/-- address.rs new: latch starts true (first write is the high byte). -/
def AddressRegister.new : AddressRegister := { hi := 0, lo := 0, address_latch := true }

/-- address.rs get: (hi as u16) << 8 | lo, which is 256 * hi + lo for byte
fields. -/
def AddressRegister.get (r : AddressRegister) : Nat := 256 * r.hi + r.lo

/-- address.rs set: split an address into its bytes ((addr >> 8) as u8 and
addr & 0xFF). -/
def AddressRegister.set (r : AddressRegister) (addr : Nat) : AddressRegister :=
  { r with hi := (addr >>> 8) % 256, lo := addr &&& 0xFF }

/-- address.rs reset_latch: the latch is set to false. -/
def AddressRegister.reset_latch (r : AddressRegister) : AddressRegister :=
  { r with address_latch := false }

/-- address.rs mirror: fold the pointer back into 0x0000..0x3FFF. -/
def AddressRegister.mirror (r : AddressRegister) : AddressRegister :=
  if r.get ≤ BEFORE_MIRROR_RANGE then r else r.set (r.get &&& BEFORE_MIRROR_RANGE)

/-- address.rs write: store into the byte selected by the latch (true = high
byte), mirror, then toggle the latch. -/
def AddressRegister.write (r : AddressRegister) (addr : Nat) : AddressRegister :=
  let r1 := if r.address_latch then { r with hi := addr } else { r with lo := addr }
  { r1.mirror with address_latch := !r.address_latch }

/-- address.rs increment: wrapping add on the low byte, carrying into the
high byte when the low byte wrapped, then mirror. -/
def AddressRegister.increment (r : AddressRegister) (inc : Nat) : AddressRegister :=
  let newLo := (r.lo + inc) % 256
  let r1 := { r with lo := newLo, hi := if newLo < r.lo then (r.hi + 1) % 256 else r.hi }
  r1.mirror

/-- ppu/registers/scroll.rs ScrollRegister. -/
structure ScrollRegister where
  scroll_x : Nat
  scroll_y : Nat
  address_latch : Bool
  deriving DecidableEq

/-- scroll.rs new: latch starts false. -/
def ScrollRegister.new : ScrollRegister :=
  { scroll_x := 0, scroll_y := 0, address_latch := false }

/-- scroll.rs write: latch true selects scroll_x, false selects scroll_y;
then toggle. -/
def ScrollRegister.write (r : ScrollRegister) (data : Nat) : ScrollRegister :=
  let r1 := if r.address_latch then { r with scroll_x := data } else { r with scroll_y := data }
  { r1 with address_latch := !r.address_latch }

/-- scroll.rs reset_latch. -/
def ScrollRegister.reset_latch (r : ScrollRegister) : ScrollRegister :=
  { r with address_latch := false }

/-- ppu/registers/oam.rs Oam (not exercised by the modelled paths). -/
structure Oam where
  addr : Nat
  data : List Nat
  deriving DecidableEq

/-- ppu/mod.rs PPU state. The status, control and mask registers are byte
values; nmi is the latched NMI request. -/
structure PPU where
  chr_rom : List Nat
  mirror_mode : Mirroring
  palette_table : List Nat
  vram : List Nat
  control : Nat
  addr : AddressRegister
  scroll : ScrollRegister
  status : Nat
  mask : Nat
  oam : Oam
  data_buffer : Nat
  scan_line : Nat
  cycles : Nat
  nmi : Option Bool
  deriving DecidableEq

/-- ppu/mod.rs PPU::new. -/
def PPU.new (chr_rom : List Nat) (mirror_mode : Mirroring) : PPU :=
  { chr_rom := chr_rom
    mirror_mode := mirror_mode
    palette_table := List.replicate 32 0
    vram := List.replicate 2048 0
    control := 0
    addr := AddressRegister.new
    scroll := ScrollRegister.new
    status := 0
    mask := 0
    oam := { addr := 0, data := List.replicate 256 0 }
    data_buffer := 0
    scan_line := 0
    cycles := 0
    nmi := none }

/-- ppu/mod.rs tick: accumulate cycles; on filling a scanline budget, advance
the scanline (u16 increment, whose wrap point is unreachable between the
frame resets below); entering scanline 241 sets in-vblank, clears
sprite-0-hit and latches an NMI request when Control enables it; reaching
262 resets the scanline and clears the NMI latch, sprite-0-hit and
in-vblank, reporting frame completion. -/
def PPU.tick (p : PPU) (cycles : Nat) : PPU × Bool :=
  let c := p.cycles + cycles
  if CLOCK_CYCLES_PER_SCAN_LINE ≤ c then
    let p1 := { p with cycles := c - CLOCK_CYCLES_PER_SCAN_LINE, scan_line := p.scan_line + 1 }
    let p2 :=
      if p1.scan_line = SCAN_LINE_INTERRUPT then
        { p1 with
          status := setFlag (setFlag p1.status IN_VBLANK true) SPRITE_0_HIT false,
          nmi := if generate_nmi p1.control then some true else p1.nmi }
      else p1
    if SCAN_LINES_PER_FRAME ≤ p2.scan_line then
      ({ p2 with scan_line := 0, nmi := none,
                 status := removeFlag (setFlag p2.status SPRITE_0_HIT false) IN_VBLANK }, true)
    else (p2, false)
  else ({ p with cycles := c }, false)

/-- ppu/mod.rs poll_nmi: take the latched request, leaving none behind. -/
def PPU.poll_nmi (p : PPU) : Option Bool × PPU :=
  (p.nmi, { p with nmi := none })

/-- status.rs is_in_vblank. -/
def is_in_vblank (s : Nat) : Bool := containsFlag s IN_VBLANK

/-- ppu/mod.rs read_status: return the current bits, then clear in-vblank and
reset both write latches. -/
def PPU.read_status (p : PPU) : Nat × PPU :=
  (p.status,
   { p with status := removeFlag p.status IN_VBLANK,
            addr := p.addr.reset_latch,
            scroll := p.scroll.reset_latch })

/-- ppu/mod.rs mirror_vram: mask into nametable space, subtract the nametable
base (in range for every caller, which dereferences only 0x2000..=0x2FFF),
and fold the four logical windows onto physical VRAM per mirror mode. -/
def mirror_vram (mode : Mirroring) (addr : Nat) : Nat :=
  let addr_mirror := addr &&& NAME_TABLE_END_ADDR
  let vram_addr := addr_mirror - NAME_TABLE_START_ADDR
  let name_table_index := vram_addr / NAME_TABLE_SIZE
  match name_table_index, mode with
  | 1, Mirroring.HORIZONTAL => vram_addr - NAME_TABLE_SIZE
  | 2, Mirroring.HORIZONTAL => vram_addr - NAME_TABLE_SIZE
  | 3, Mirroring.HORIZONTAL => vram_addr - (2 * NAME_TABLE_SIZE)
  | 2, Mirroring.VERTICAL => vram_addr - (2 * NAME_TABLE_SIZE)
  | 3, Mirroring.VERTICAL => vram_addr - (2 * NAME_TABLE_SIZE)
  | _, _ => vram_addr

/-- ppu/mod.rs increment_vram_ptr. -/
def increment_vram_ptr (p : PPU) : PPU :=
  { p with addr := p.addr.increment (get_vram_jump_dist p.control) }

/-- ppu/mod.rs read_ppu_data: take the effective address, increment the
pointer, then serve the read: pattern (CHR) and nametable reads go through
the one-byte buffer (returning the previous buffer content), palette reads
return immediately; 0x3000..0x3EFF and addresses past 0x3FFF panic in the
source, and out-of-bounds indexing panics, both modelled as none. -/
def read_ppu_data (p : PPU) : Option (Nat × PPU) :=
  let ppu_addr := p.addr.get
  let p1 := increment_vram_ptr p
  if ppu_addr ≤ CHR_ROM_END_ADDR then
    (p.chr_rom.get? ppu_addr).map (fun b => (p.data_buffer, { p1 with data_buffer := b }))
  else if ppu_addr ≤ NAME_TABLE_END_ADDR then
    (p.vram.get? (mirror_vram p.mirror_mode ppu_addr)).map
      (fun b => (p.data_buffer, { p1 with data_buffer := b }))
  else if ppu_addr ≤ 0x3EFF then
    none
  else if ppu_addr = 0x3F10 ∨ ppu_addr = 0x3F14 ∨ ppu_addr = 0x3F18 ∨ ppu_addr = 0x3F1C then
    (p.palette_table.get? (ppu_addr - 0x10 - PALETTE_START_ADDR)).map (fun b => (b, p1))
  else if ppu_addr ≤ BEFORE_MIRROR_RANGE then
    (p.palette_table.get? (ppu_addr - PALETTE_START_ADDR)).map (fun b => (b, p1))
  else
    none

/-- ppu/mod.rs write_ppu_data: same effective-address and increment logic as
reads; CHR writes are rejected (logged and dropped), nametable writes go
through mirror_vram, palette writes apply the palette mirroring;
0x3000..0x3EFF and addresses past 0x3FFF are unreachable arms (none), and
out-of-bounds indexing is none. -/
def write_ppu_data (p : PPU) (data : Nat) : Option PPU :=
  let ppu_addr := p.addr.get
  let p1 := increment_vram_ptr p
  if ppu_addr ≤ CHR_ROM_END_ADDR then
    some p1
  else if ppu_addr ≤ NAME_TABLE_END_ADDR then
    if mirror_vram p.mirror_mode ppu_addr < p.vram.length then
      some { p1 with vram := p.vram.set (mirror_vram p.mirror_mode ppu_addr) data }
    else none
  else if ppu_addr ≤ 0x3EFF then
    none
  else if ppu_addr = 0x3F10 ∨ ppu_addr = 0x3F14 ∨ ppu_addr = 0x3F18 ∨ ppu_addr = 0x3F1C then
    if ppu_addr - 0x10 - PALETTE_START_ADDR < p.palette_table.length then
      some { p1 with palette_table := p.palette_table.set (ppu_addr - 0x10 - PALETTE_START_ADDR) data }
    else none
  else if ppu_addr ≤ BEFORE_MIRROR_RANGE then
    if ppu_addr - PALETTE_START_ADDR < p.palette_table.length then
      some { p1 with palette_table := p.palette_table.set (ppu_addr - PALETTE_START_ADDR) data }
    else none
  else
    none

/-- ppu/mod.rs mem_write for 0x2005: delegate to the scroll register. -/
def PPU.write_scroll (p : PPU) (data : Nat) : PPU :=
  { p with scroll := p.scroll.write data }

/-- ppu/mod.rs mem_write for 0x2006: delegate to the address register. -/
def PPU.write_addr_reg (p : PPU) (data : Nat) : PPU :=
  { p with addr := p.addr.write data }

/-- Test fixture: a fresh PPU with NMI generation enabled, parked one cycle
before entering the vblank scanline. -/
def ppu_vblank_fixture : PPU :=
  { PPU.new [] Mirroring.HORIZONTAL with control := 0x80, scan_line := 240, cycles := 340 }

/-- Test fixture: a fresh PPU whose VRAM pointer addresses palette entry 5
and whose palette table holds 7 everywhere. -/
def ppu_palette_fixture : PPU :=
  { PPU.new [] Mirroring.HORIZONTAL with
      addr := ⟨0x3F, 0x05, true⟩, palette_table := List.replicate 32 7 }

/-! Helper lemmas about the byte-level flag operations. -/

theorem zn_flag_bits : ∀ s < 256, ∀ b1 b2 : Bool,
    containsFlag (setFlag (setFlag s ZERO b1) NEGATIVE b2) ZERO = b1 ∧
    containsFlag (setFlag (setFlag s ZERO b1) NEGATIVE b2) NEGATIVE = b2 ∧
    setFlag (setFlag s ZERO b1) NEGATIVE b2 &&& CARRY = s &&& CARRY ∧
    setFlag (setFlag s ZERO b1) NEGATIVE b2 &&& INTERRUPT_DISABLE = s &&& INTERRUPT_DISABLE ∧
    setFlag (setFlag s ZERO b1) NEGATIVE b2 &&& DECIMAL = s &&& DECIMAL ∧
    setFlag (setFlag s ZERO b1) NEGATIVE b2 &&& BREAK = s &&& BREAK ∧
    setFlag (setFlag s ZERO b1) NEGATIVE b2 &&& BREAK2 = s &&& BREAK2 ∧
    setFlag (setFlag s ZERO b1) NEGATIVE b2 &&& OVERFLOW = s &&& OVERFLOW := by decide

theorem add_status_carry_bit : ∀ s < 256, ∀ b1 b2 b3 b4 : Bool,
    containsFlag
      (setFlag (setFlag (setFlag (setFlag s CARRY b1) OVERFLOW b2) ZERO b3) NEGATIVE b4)
      CARRY = b1 := by decide

theorem ite_flag (s m : Nat) (P : Prop) [Decidable P] :
    (if P then insertFlag s m else removeFlag s m) = setFlag s m (decide P) := by
  by_cases h : P <;> simp [setFlag, h]

theorem ones_complement_eq : ∀ b < 256, ones_complement b = b ^^^ 0xFF ∧ ones_complement b = 255 - b := by decide

/-- C1: For every 8-bit value v stored by a load, transfer, or logical
instruction (LDA, TAX/TXA transfers, AND/ORA/EOR): after the flag update the
Zero flag equals (v = 0), the Negative flag equals (v &&& 0x80 ≠ 0), no
status flag other than Zero and Negative changes, and each of these
instructions stores its value and routes it through
update_zero_and_negative_flags. -/
theorem claim_C1 (r : CpuRegs) (v : Nat) (hs : r.status < 256) :
    (containsFlag (update_zero_and_negative_flags r.status v) ZERO = true ↔ v = 0) ∧
    (containsFlag (update_zero_and_negative_flags r.status v) NEGATIVE = true ↔ v &&& 0x80 ≠ 0) ∧
    update_zero_and_negative_flags r.status v &&& CARRY = r.status &&& CARRY ∧
    update_zero_and_negative_flags r.status v &&& INTERRUPT_DISABLE
      = r.status &&& INTERRUPT_DISABLE ∧
    update_zero_and_negative_flags r.status v &&& DECIMAL = r.status &&& DECIMAL ∧
    update_zero_and_negative_flags r.status v &&& BREAK = r.status &&& BREAK ∧
    update_zero_and_negative_flags r.status v &&& BREAK2 = r.status &&& BREAK2 ∧
    update_zero_and_negative_flags r.status v &&& OVERFLOW = r.status &&& OVERFLOW ∧
    lda_value r v
      = { r with register_a := v, status := update_zero_and_negative_flags r.status v } ∧
    ora_value r v
      = { r with register_a := r.register_a ||| v,
                 status := update_zero_and_negative_flags r.status (r.register_a ||| v) } ∧
    and_value r v
      = { r with register_a := r.register_a &&& v,
                 status := update_zero_and_negative_flags r.status (r.register_a &&& v) } ∧
    eor_value r v
      = { r with register_a := r.register_a ^^^ v,
                 status := update_zero_and_negative_flags r.status (r.register_a ^^^ v) } ∧
    tax r = { r with register_x := r.register_a,
                     status := update_zero_and_negative_flags r.status r.register_a } ∧
    txa r = { r with register_a := r.register_x,
                     status := update_zero_and_negative_flags r.status r.register_x } := by
  obtain ⟨h1, h2, h3, h4, h5, h6, h7, h8⟩ :=
    zn_flag_bits r.status hs (v == 0) (decide (0 < v &&& 0b10000000))
  refine ⟨?_, ?_, h3, h4, h5, h6, h7, h8, rfl, rfl, rfl, rfl, rfl, rfl⟩
  · rw [show update_zero_and_negative_flags r.status v
        = setFlag (setFlag r.status ZERO (v == 0)) NEGATIVE
            (decide (0 < v &&& 0b10000000)) from rfl, h1]
    exact beq_iff_eq
  · rw [show update_zero_and_negative_flags r.status v
        = setFlag (setFlag r.status ZERO (v == 0)) NEGATIVE
            (decide (0 < v &&& 0b10000000)) from rfl, h2]
    rw [decide_eq_true_eq]
    exact Nat.pos_iff_ne_zero

theorem claim_C1_witness :
    containsFlag (update_zero_and_negative_flags 36 0x85) NEGATIVE = true
      ↔ (0x85 : Nat) &&& 0x80 ≠ 0 :=
  (claim_C1 ⟨0, 0, 0, 36⟩ 0x85 (by decide)).2.1

theorem add_to_accumulator_fst (a s value : Nat) :
    (add_to_accumulator a s value).1
      = (a + value + (if containsFlag s CARRY then 1 else 0)) % 256 := rfl

theorem add_to_accumulator_carry (a s value : Nat) (hs : s < 256) :
    containsFlag (add_to_accumulator a s value).2 CARRY
      = decide (0xFF < a + value + (if containsFlag s CARRY then 1 else 0)) :=
  add_status_carry_bit s hs
    (decide (0xFF < a + value + (if containsFlag s CARRY then 1 else 0)))
    (decide ((value ^^^ ((a + value + (if containsFlag s CARRY then 1 else 0)) % 256)) &&&
      ((a ^^^ ((a + value + (if containsFlag s CARRY then 1 else 0)) % 256))) &&& 0x80 ≠ 0))
    (((a + value + (if containsFlag s CARRY then 1 else 0)) % 256) == 0)
    (decide (0 < ((a + value + (if containsFlag s CARRY then 1 else 0)) % 256) &&& 0b10000000))

/-- C2 counterexample: with accumulator 0, operand 0 and Carry clear, ADC
leaves 0 with carry-out clear, and the following SBC of 0 with that carry
yields 255, not the original accumulator 0; the claim as stated is false. -/
theorem claim_C2_counterexample :
    (add_to_accumulator 0 0 0).1 = 0 ∧
    containsFlag (add_to_accumulator 0 0 0).2 CARRY = false ∧
    (sub_from_register_a (add_to_accumulator 0 0 0).1 (add_to_accumulator 0 0 0).2 0).1 = 255 ∧
    (sub_from_register_a (add_to_accumulator 0 0 0).1 (add_to_accumulator 0 0 0).2 0).1 ≠ 0 := by
  decide

/-- C2 (amended): SBC is ADC of the bitwise complement of the operand
(realising a - b - not c = a + complement b + c), and the ADC/SBC round trip
yields accumulator (a + carry-in + carry-out + 255) mod 256, which equals the
original a exactly when carry-in + carry-out = 1, i.e. when the carry
produced by the addition is the negation of the carry that entered it. -/
theorem claim_C2_amended (a b s : Nat) (ha : a < 256) (hb : b < 256) :
    ones_complement b = b ^^^ 0xFF ∧
    (sub_from_register_a (add_to_accumulator a s b).1 (add_to_accumulator a s b).2 b).1
      = (a + (if containsFlag s CARRY then 1 else 0)
          + (if containsFlag (add_to_accumulator a s b).2 CARRY then 1 else 0) + 255) % 256 ∧
    ((sub_from_register_a (add_to_accumulator a s b).1 (add_to_accumulator a s b).2 b).1 = a
      ↔ (if containsFlag s CARRY then 1 else 0)
          + (if containsFlag (add_to_accumulator a s b).2 CARRY then 1 else 0) = 1) := by
  obtain ⟨hoc, hoc2⟩ := ones_complement_eq b hb
  have hf : (if containsFlag s CARRY then (1 : Nat) else 0) ≤ 1 := by split <;> omega
  have hi : (if containsFlag (add_to_accumulator a s b).2 CARRY then (1 : Nat) else 0) ≤ 1 := by
    split <;> omega
  have hx : (sub_from_register_a (add_to_accumulator a s b).1 (add_to_accumulator a s b).2 b).1
      = ((a + b + (if containsFlag s CARRY then 1 else 0)) % 256 + ones_complement b
          + (if containsFlag (add_to_accumulator a s b).2 CARRY then 1 else 0)) % 256 := rfl
  rw [hoc2] at hx
  refine ⟨hoc, ?_, ?_⟩
  · rw [hx]; omega
  · rw [hx]; omega

theorem claim_C2_witness :
    ((sub_from_register_a (add_to_accumulator 5 1 3).1 (add_to_accumulator 5 1 3).2 3).1 = 5
      ↔ (if containsFlag 1 CARRY then 1 else 0)
          + (if containsFlag (add_to_accumulator 5 1 3).2 CARRY then 1 else 0) = 1) :=
  (claim_C2_amended 5 3 1 (by decide) (by decide)).2.2

/-- C8: evaluation of the DCP arm at a failing input. With accumulator 0,
Carry already set (status 0x01) and memory operand 5, DCP writes back 4 and
leaves Carry set, although the comparison of the accumulator with the
decremented value (the semantics the claim demands, and what the shared
compare helper computes) clears Carry since 0 < 4. -/
theorem claim_C8_code_eval :
    (dcp_step 0 0x01 5).1 = 4 ∧
    containsFlag (dcp_step 0 0x01 5).2 CARRY = true ∧
    containsFlag (compare_flags 0 0x01 4) CARRY = false := by decide

theorem restore_forces_bits : ∀ d < 256,
    containsFlag (insertFlag (removeFlag d BREAK) BREAK2) BREAK = false ∧
    containsFlag (insertFlag (removeFlag d BREAK) BREAK2) BREAK2 = true := by decide

theorem php_copy_bits : ∀ s < 256,
    containsFlag (insertFlag (insertFlag s BREAK) BREAK2) BREAK = true ∧
    containsFlag (insertFlag (insertFlag s BREAK) BREAK2) BREAK2 = true ∧
    insertFlag (insertFlag s BREAK) BREAK2 &&& CARRY = s &&& CARRY ∧
    insertFlag (insertFlag s BREAK) BREAK2 &&& ZERO = s &&& ZERO ∧
    insertFlag (insertFlag s BREAK) BREAK2 &&& INTERRUPT_DISABLE = s &&& INTERRUPT_DISABLE ∧
    insertFlag (insertFlag s BREAK) BREAK2 &&& DECIMAL = s &&& DECIMAL ∧
    insertFlag (insertFlag s BREAK) BREAK2 &&& OVERFLOW = s &&& OVERFLOW ∧
    insertFlag (insertFlag s BREAK) BREAK2 &&& NEGATIVE = s &&& NEGATIVE := by decide

/-- C9: Every status byte restored from the stack by PLP or RTI has Break
forced clear and Break2 forced set, whatever the popped bits were; PHP pushes
a copy of the status with Break and Break2 forced set, leaving every other
bit of the copy equal to the live status and the live status itself
unchanged. -/
theorem claim_C9 (c : CpuStack) (hmem : ∀ a, c.mem a < 256) (hs : c.status < 256) :
    containsFlag (plp c).status BREAK = false ∧
    containsFlag (plp c).status BREAK2 = true ∧
    containsFlag (rti c).status BREAK = false ∧
    containsFlag (rti c).status BREAK2 = true ∧
    (php c).status = c.status ∧
    (php c).mem (0x0100 + c.stack_ptr) = insertFlag (insertFlag c.status BREAK) BREAK2 ∧
    containsFlag ((php c).mem (0x0100 + c.stack_ptr)) BREAK = true ∧
    containsFlag ((php c).mem (0x0100 + c.stack_ptr)) BREAK2 = true ∧
    (php c).mem (0x0100 + c.stack_ptr) &&& CARRY = c.status &&& CARRY ∧
    (php c).mem (0x0100 + c.stack_ptr) &&& ZERO = c.status &&& ZERO ∧
    (php c).mem (0x0100 + c.stack_ptr) &&& INTERRUPT_DISABLE
      = c.status &&& INTERRUPT_DISABLE ∧
    (php c).mem (0x0100 + c.stack_ptr) &&& DECIMAL = c.status &&& DECIMAL ∧
    (php c).mem (0x0100 + c.stack_ptr) &&& OVERFLOW = c.status &&& OVERFLOW ∧
    (php c).mem (0x0100 + c.stack_ptr) &&& NEGATIVE = c.status &&& NEGATIVE := by
  obtain ⟨hp1, hp2⟩ :=
    restore_forces_bits (c.mem (0x0100 + (c.stack_ptr + 1) % 256))
      (hmem (0x0100 + (c.stack_ptr + 1) % 256))
  have hpushed : (php c).mem (0x0100 + c.stack_ptr)
      = insertFlag (insertFlag c.status BREAK) BREAK2 := by
    simp [php, push]
  obtain ⟨hq1, hq2, hq3, hq4, hq5, hq6, hq7, hq8⟩ := php_copy_bits c.status hs
  exact ⟨hp1, hp2, hp1, hp2, rfl, hpushed,
    hpushed ▸ hq1, hpushed ▸ hq2, hpushed ▸ hq3, hpushed ▸ hq4,
    hpushed ▸ hq5, hpushed ▸ hq6, hpushed ▸ hq7, hpushed ▸ hq8⟩

theorem claim_C9_witness :
    containsFlag (plp ⟨36, 0xFD, 0, fun _ => 0xFF⟩).status BREAK = false :=
  (claim_C9 ⟨36, 0xFD, 0, fun _ => 0xFF⟩
    (by intro a; show (0xFF : Nat) < 256; decide) (by decide)).1

theorem vblank_entry_bit : ∀ s < 256,
    containsFlag (setFlag (setFlag s IN_VBLANK true) SPRITE_0_HIT false) IN_VBLANK = true := by
  decide

theorem tick_enter_vblank (p : PPU) (n : Nat) (hsl : p.scan_line = 240)
    (hc : CLOCK_CYCLES_PER_SCAN_LINE ≤ p.cycles + n) :
    p.tick n = ({ p with cycles := p.cycles + n - CLOCK_CYCLES_PER_SCAN_LINE,
                         scan_line := 241,
                         status := setFlag (setFlag p.status IN_VBLANK true) SPRITE_0_HIT false,
                         nmi := if generate_nmi p.control then some true else p.nmi }, false) := by
  unfold PPU.tick
  rw [if_pos hc]
  simp only [hsl]
  norm_num [SCAN_LINE_INTERRUPT, SCAN_LINES_PER_FRAME]

/-- C3: From the scanline just before vblank, with generate-NMI enabled, a
tick that completes the scanline budget enters scanline 241, sets the
in-vblank status bit, does not report frame completion, and latches an NMI
request that poll_nmi yields exactly once: the first poll returns it and a
second poll returns nothing. -/
theorem claim_C3 (p : PPU) (n : Nat) (hs : p.status < 256) (hsl : p.scan_line = 240)
    (hnmi : generate_nmi p.control = true) (hc : 341 ≤ p.cycles + n) :
    is_in_vblank (p.tick n).1.status = true ∧
    (p.tick n).1.scan_line = SCAN_LINE_INTERRUPT ∧
    (p.tick n).2 = false ∧
    ((p.tick n).1.poll_nmi).1 = some true ∧
    ((((p.tick n).1.poll_nmi).2).poll_nmi).1 = none := by
  rw [tick_enter_vblank p n hsl hc]
  refine ⟨vblank_entry_bit p.status hs, rfl, rfl, ?_, rfl⟩
  simp [PPU.poll_nmi, hnmi]

theorem claim_C3_witness : is_in_vblank ((ppu_vblank_fixture.tick 1).1.status) = true :=
  (claim_C3 ppu_vblank_fixture 1 (by decide) rfl (by decide) (by decide)).1

/-- C4: evaluation of the Status-read/Address-write interplay at the failing
input. Reading Status does return the current bits, clears in-vblank, and
resets both write latches; but AddressRegister.reset_latch sets the latch to
false while AddressRegister.write treats a true latch as the high-byte side
(as on a fresh register, where the first write of 0x21 yields pointer
0x2100). So the Address write that follows a Status read is stored as the
LOW byte: the same write of 0x21 yields pointer 0x0021, contradicting the
claim that it is treated as the high byte. -/
theorem claim_C4_code_eval :
    ((PPU.read_status { PPU.new [] Mirroring.HORIZONTAL with status := 0b11100000 }).1
      = 0b11100000) ∧
    (is_in_vblank (PPU.read_status
      { PPU.new [] Mirroring.HORIZONTAL with status := 0b11100000 }).2.status = false) ∧
    ((PPU.read_status (PPU.new [] Mirroring.HORIZONTAL)).2.addr.address_latch = false) ∧
    ((PPU.read_status (PPU.new [] Mirroring.HORIZONTAL)).2.scroll.address_latch = false) ∧
    (AddressRegister.new.write 0x21).get = 0x2100 ∧
    (PPU.write_addr_reg (PPU.read_status (PPU.new [] Mirroring.HORIZONTAL)).2 0x21).addr.get
      = 0x21 ∧
    ¬ (PPU.write_addr_reg (PPU.read_status (PPU.new [] Mirroring.HORIZONTAL)).2 0x21).addr.get
      = 0x2100 := by decide

/-- C7: evaluation of the Scroll write pair at the failing input. On a fresh
PPU (and equally after a Status read resets the latch to false), two
sequential Scroll writes of 0x12 then 0x34 store 0x12 into scroll_y and 0x34
into scroll_x: the first written byte becomes the Y scroll value and the
second the X scroll value, the opposite of the claim. -/
theorem claim_C7_code_eval :
    ((ScrollRegister.new.write 0x12).write 0x34).scroll_x = 0x34 ∧
    ((ScrollRegister.new.write 0x12).write 0x34).scroll_y = 0x12 ∧
    (PPU.write_scroll (PPU.write_scroll (PPU.new [] Mirroring.HORIZONTAL) 0x12) 0x34).scroll.scroll_x
      = 0x34 ∧
    (PPU.write_scroll (PPU.write_scroll (PPU.new [] Mirroring.HORIZONTAL) 0x12) 0x34).scroll.scroll_y
      = 0x12 ∧
    (PPU.write_scroll (PPU.write_scroll
      (PPU.read_status (PPU.new [] Mirroring.HORIZONTAL)).2 0x12) 0x34).scroll.scroll_y
      = 0x12 := by decide

/-- C10: For every address in the nametable window 0x2000..0x2FFF and both
the Horizontal and Vertical mirror modes, mirror_vram lands strictly below
0x800, so the VRAM indexing done with it in read_ppu_data and write_ppu_data
stays inside the 2 KB (2048-entry) VRAM array. -/
theorem mirror_vram_bound_aux : ∀ h8 < 16, ∀ l8 < 256,
    mirror_vram Mirroring.HORIZONTAL (0x2000 + 256 * h8 + l8) < 0x800 ∧
    mirror_vram Mirroring.VERTICAL (0x2000 + 256 * h8 + l8) < 0x800 := by decide

theorem claim_C10 : ∀ addr, addr ≤ 0x2FFF → 0x2000 ≤ addr →
    mirror_vram Mirroring.HORIZONTAL addr < 0x800 ∧
    mirror_vram Mirroring.VERTICAL addr < 0x800 := by
  intro addr h1 h2
  have hsplit : addr = 0x2000 + 256 * ((addr - 0x2000) / 256) + (addr - 0x2000) % 256 := by
    omega
  rw [hsplit]
  exact mirror_vram_bound_aux ((addr - 0x2000) / 256) (by omega) ((addr - 0x2000) % 256)
    (by omega)

theorem claim_C10_witness : mirror_vram Mirroring.HORIZONTAL 0x2C05 < 0x800 :=
  (claim_C10 0x2C05 (by decide) (by decide)).1

/-- C5 counterexample: a taken BEQ (opcode 0xF0, Zero set) at 0x0600 with
displacement byte 0xFF (minus one) should land on pc_after_operand plus the
displacement, 0x0602 + 0xFFFF mod 2^16 = 0x0601; but that destination equals
the program counter recorded before execution, so has_jumped_or_branched
reports no movement and the step re-advances past the operand, ending at
0x0602. -/
theorem claim_C5_counterexample :
    ((0x0602 + sign_extend_16 0xFF) % 65536 : Nat) = 0x0601 ∧
    branch_step (fun a => if a = 0x0601 then 0xFF else 0) 0b00000010 0x0600 0xF0
      = some 0x0602 ∧
    (0x0602 : Nat) ≠ 0x0601 := by decide

/-- C5 (amended): For every branch opcode with its condition evaluated on the
status byte, the full fetch-decode-execute step ends with the program counter
at pc_after_operand + displacement (wrapping 16-bit arithmetic, displacement
sign-extended) whenever the condition holds and the displacement byte is not
0xFF; when the condition fails, and also in the corner case of a taken
branch with displacement 0xFF (which lands exactly on the pre-execution
program counter and is therefore re-advanced), the step ends at
pc_after_operand = pc0 + 2. -/
theorem claim_C5_amended (mem : Nat → Nat) (s pc0 opcode : Nat) (condition : Bool)
    (hmem : ∀ a, mem a < 256)
    (hcond : branch_condition opcode s = some condition) :
    branch_step mem s pc0 opcode
      = some (if condition = true ∧ mem ((pc0 + 1) % 65536) ≠ 0xFF
          then ((pc0 + 2) % 65536 + sign_extend_16 (mem ((pc0 + 1) % 65536))) % 65536
          else (pc0 + 2) % 65536) := by
  unfold branch_step
  rw [hcond, Option.map_some']
  congr 1
  have hb : mem ((pc0 + 1) % 65536) < 256 := hmem _
  cases condition with
  | false =>
    show (if branch mem ((pc0 + 1) % 65536) false ≠ (pc0 + 1) % 65536
        then branch mem ((pc0 + 1) % 65536) false
        else (branch mem ((pc0 + 1) % 65536) false + 1) % 65536) = _
    have hbr : branch mem ((pc0 + 1) % 65536) false = (pc0 + 1) % 65536 := rfl
    rw [hbr, if_neg (by simp), if_neg (by simp)]
    omega
  | true =>
    show (if branch mem ((pc0 + 1) % 65536) true ≠ (pc0 + 1) % 65536
        then branch mem ((pc0 + 1) % 65536) true
        else (branch mem ((pc0 + 1) % 65536) true + 1) % 65536) = _
    have hbr : branch mem ((pc0 + 1) % 65536) true
        = (((pc0 + 1) % 65536 + 1) % 65536
            + sign_extend_16 (mem ((pc0 + 1) % 65536))) % 65536 := rfl
    rw [hbr]
    by_cases hd : mem ((pc0 + 1) % 65536) = 0xFF
    · have hse : sign_extend_16 (mem ((pc0 + 1) % 65536)) = 65535 := by
        rw [hd]; decide
      have hdest : (((pc0 + 1) % 65536 + 1) % 65536
            + sign_extend_16 (mem ((pc0 + 1) % 65536))) % 65536 = (pc0 + 1) % 65536 := by
        rw [hse]; omega
      rw [hdest, if_neg (by simp), if_neg (by simp [hd])]
      omega
    · have hs16b : sign_extend_16 (mem ((pc0 + 1) % 65536)) ≤ 65534 := by
        unfold sign_extend_16
        rw [Nat.mod_eq_of_lt hb]
        split <;> omega
      have hne : (((pc0 + 1) % 65536 + 1) % 65536
            + sign_extend_16 (mem ((pc0 + 1) % 65536))) % 65536 ≠ (pc0 + 1) % 65536 := by
        omega
      rw [if_pos hne, if_pos ⟨rfl, hd⟩]
      omega

theorem claim_C5_witness :
    branch_step (fun _ => 0x10) 0b00000010 0x0600 0xF0 = some 0x0612 := by
  rw [claim_C5_amended (fun _ => 0x10) 0b00000010 0x0600 0xF0 true
    (by intro a; show (0x10 : Nat) < 256; decide) (by decide)]
  decide

theorem get_increment (r : AddressRegister) (inc : Nat) (hlo : r.lo < 256)
    (hinc : inc ≤ 255) (hget : r.get ≤ 0x3FFF) :
    (r.increment inc).get = (r.get + inc) % 0x4000 := by
  have hand14 : ∀ x : Nat, x &&& 0x3FFF = x % 0x4000 := fun x =>
    Nat.and_pow_two_sub_one_eq_mod x 14
  have hand8 : ∀ x : Nat, x &&& 0xFF = x % 0x100 := fun x =>
    Nat.and_pow_two_sub_one_eq_mod x 8
  have hshr : ∀ x : Nat, x >>> 8 = x / 0x100 := fun x => Nat.shiftRight_eq_div_pow x 8
  have hget2 : 256 * r.hi + r.lo ≤ 0x3FFF := hget
  unfold AddressRegister.increment AddressRegister.mirror AddressRegister.set
    AddressRegister.get
  dsimp only
  simp only [BEFORE_MIRROR_RANGE, hand14, hand8, hshr]
  split_ifs <;> (try dsimp only) <;> omega

/-- C6: Data accesses through the Address register: the increment distance
is 32 or 1 according to the Control VRAM-increment-mode bit and every data
access advances the 16-bit pointer by that distance (folded back into
0x0000..0x3FFF); a read at a pattern address (0x0000..0x1FFF) or a nametable
address (0x2000..0x2FFF, through mirror_vram) returns the previously
buffered byte while the newly addressed byte enters the buffer; a read at a
palette address (0x3F00..0x3FFF, including the mirrored entries) returns the
palette byte immediately, leaving the buffer untouched. -/
theorem claim_C6 (p : PPU) (hlo : p.addr.lo < 256) :
    (get_vram_jump_dist p.control
      = if containsFlag p.control VRAM_INCREMENT_MODE then 32 else 1) ∧
    (p.addr.get ≤ 0x3FFF →
      (increment_vram_ptr p).addr.get
        = (p.addr.get + get_vram_jump_dist p.control) % 0x4000) ∧
    (∀ b, p.addr.get ≤ 0x1FFF → p.chr_rom.get? p.addr.get = some b →
      read_ppu_data p
        = some (p.data_buffer, { increment_vram_ptr p with data_buffer := b })) ∧
    (∀ b, 0x2000 ≤ p.addr.get → p.addr.get ≤ 0x2FFF →
      p.vram.get? (mirror_vram p.mirror_mode p.addr.get) = some b →
      read_ppu_data p
        = some (p.data_buffer, { increment_vram_ptr p with data_buffer := b })) ∧
    (∀ b, (p.addr.get = 0x3F10 ∨ p.addr.get = 0x3F14 ∨ p.addr.get = 0x3F18
        ∨ p.addr.get = 0x3F1C) →
      p.palette_table.get? (p.addr.get - 0x10 - 0x3F00) = some b →
      read_ppu_data p = some (b, increment_vram_ptr p)) ∧
    (∀ b, 0x3F00 ≤ p.addr.get → p.addr.get ≤ 0x3FFF →
      ¬(p.addr.get = 0x3F10 ∨ p.addr.get = 0x3F14 ∨ p.addr.get = 0x3F18
        ∨ p.addr.get = 0x3F1C) →
      p.palette_table.get? (p.addr.get - 0x3F00) = some b →
      read_ppu_data p = some (b, increment_vram_ptr p)) := by
  refine ⟨rfl, ?_, ?_, ?_, ?_, ?_⟩
  · intro h
    exact get_increment p.addr (get_vram_jump_dist p.control) hlo
      (by unfold get_vram_jump_dist; split <;> omega) h
  · intro b hle hsome
    unfold read_ppu_data
    dsimp only
    simp only [CHR_ROM_END_ADDR] at *
    rw [if_pos hle, hsome]
    rfl
  · intro b h1 h2 hsome
    unfold read_ppu_data
    dsimp only
    simp only [CHR_ROM_END_ADDR, NAME_TABLE_END_ADDR] at *
    rw [if_neg (by omega), if_pos h2, hsome]
    rfl
  · intro b hm hsome
    unfold read_ppu_data
    dsimp only
    simp only [CHR_ROM_END_ADDR, NAME_TABLE_END_ADDR, PALETTE_START_ADDR] at *
    rw [if_neg (by rcases hm with h | h | h | h <;> omega),
        if_neg (by rcases hm with h | h | h | h <;> omega),
        if_neg (by rcases hm with h | h | h | h <;> omega),
        if_pos hm, hsome]
    rfl
  · intro b h1 h2 hnm hsome
    unfold read_ppu_data
    dsimp only
    simp only [CHR_ROM_END_ADDR, NAME_TABLE_END_ADDR, PALETTE_START_ADDR,
      BEFORE_MIRROR_RANGE] at *
    rw [if_neg (by omega), if_neg (by omega), if_neg (by omega), if_neg hnm,
        if_pos h2, hsome]
    rfl

theorem claim_C6_witness :
    read_ppu_data ppu_palette_fixture = some (7, increment_vram_ptr ppu_palette_fixture) :=
  (claim_C6 ppu_palette_fixture (by decide)).2.2.2.2.2 7 (by decide) (by decide)
    (by decide) (by decide)

end Nes
